import Mathlib

/-!
Shallow embedding of the Prospera opportunity-matching pipeline
(src/matching/opportunity_matcher.py, with the profile dataclass from
src/profile/business_profile.py).

Modelling conventions:
- Python floats are modelled as rationals; the properties at stake
  (clamping, threshold comparison, ordering) only use comparisons,
  max/min and constants, which agree with the float semantics.
- The two LLM round trips are external, non-deterministic calls.  Each is
  modelled by the outcome of the round trip: an exception anywhere inside
  the try block (the HTTP call, json.loads, or the max/min arithmetic on a
  non-numeric score, all caught by the broad except), an empty message
  content, or a parsed JSON object.  A parsed object is a partial map,
  modelled by Option-valued fields; a missing key is none.
- datetime.now() is modelled by a natural-number clock passed in.
- list.sort(key=..., reverse=True) in Python is the stable descending sort
  by the key; it is modelled by Mathlib insertion sort under the relation
  "left score is at least right score", which is the stable descending
  sort by that key.
-/

/-- Opportunity dataclass (opportunity_matcher.py ll.17-29).  The published_at
datetime and the free-form metadata map play no role in matching; timestamps
are natural numbers and metadata a string-to-string association list. -/
structure Opportunity where
  id : String
  title : String
  description : String
  content : String
  source : String
  source_url : String
  opportunity_type : String
  tags : List String
  published_at : Nat
  metadata : List (String × String)
deriving DecidableEq

/-- Match dataclass (opportunity_matcher.py ll.31-39).  match_status defaults
to pending and created_at to None in the dataclass; both constructors in the
source set created_at explicitly and leave match_status at its default. -/
structure Match where
  company_id : String
  opportunity_id : String
  relevance_score : ℚ
  reasoning : String
  match_status : String
  created_at : Option Nat
deriving DecidableEq

/-- Attributes of the profile argument that analyze_company_profile actually
reads when building profile_text (opportunity_matcher.py ll.50-59).  Python
never checks the BusinessProfile type hint, so the function works for any
duck-typed object exposing these eight attributes; this record is that shape
(it coincides with the CompanyProfile entity of the design spec). -/
structure CompanyProfile where
  company_name : String
  industry : String
  business_type : String
  company_size : String
  description : String
  services : List String
  target_markets : List String
  key_challenges : List String
deriving DecidableEq

/-- Parsed JSON object returned by the profile-analysis oracle, as consumed
downstream: json.loads yields a dict; each key the pipeline ever reads is an
Option-valued field (none = key absent).  Values are rendered to text when
interpolated into prompts, so fields are strings.  The error key is the one
added on the exception path (opportunity_matcher.py l.104). -/
structure CompanyAnalysis where
  industry_focus : Option String
  business_stage : Option String
  target_customers : Option String
  growth_priorities : Option String
  technology_adoption : Option String
  geographic_scope : Option String
  key_capabilities : Option String
  partnership_interests : Option String
  error : Option String
deriving DecidableEq

/-- Outcome of the analysis-oracle round trip inside the try block of
analyze_company_profile (ll.77-105): an exception (HTTP call or json.loads),
an empty message content, or a parsed JSON object. -/
inductive AnalysisOutcome where
  | raised (msg : String)
  | noContent
  | parsed (analysis : CompanyAnalysis)
deriving DecidableEq

/-- Outcome of the scoring-oracle round trip inside the try block of
score_opportunity_relevance (ll.146-175): an exception (HTTP call,
json.loads, or the TypeError from max/min on a non-numeric score), an empty
message content, or a parsed JSON object carrying an optional numeric
relevance_score and an optional reasoning string. -/
inductive ScoringOutcome where
  | raised (msg : String)
  | noContent
  | scored (relevance_score : Option ℚ) (reasoning : Option String)
deriving DecidableEq

/-- The scoring oracle: one outcome per call.  The call is determined by the
opportunity being scored and the prompt text submitted. -/
def ScoringOracle : Type := Opportunity → String → ScoringOutcome

/-- Empty company-analysis object (a dict with no keys). -/
def CompanyAnalysis.empty : CompanyAnalysis :=
  { industry_focus := none, business_stage := none, target_customers := none,
    growth_priorities := none, technology_adoption := none,
    geographic_scope := none, key_capabilities := none,
    partnership_interests := none, error := none }

/-- analyze_company_profile (opportunity_matcher.py ll.47-105), abstracted
over the oracle round-trip outcome.  On success the parsed dict is returned
verbatim; on empty content a two-key dict; on exception a dict built from
the raw profile plus the error marker (ll.99-105). -/
def analyze_company_profile (outcome : AnalysisOutcome)
    (profile : CompanyProfile) : CompanyAnalysis :=
  match outcome with
  | .raised msg =>
      { CompanyAnalysis.empty with
        industry_focus := some profile.industry,
        business_stage := some ("unknown"),
        error := some msg }
  | .noContent =>
      { CompanyAnalysis.empty with
        industry_focus := some ("Unknown"),
        business_stage := some ("Unknown") }
  | .parsed analysis => analysis

/-- Python content[:500] on a string: the first 500 code points
(opportunity_matcher.py l.128). -/
def pyTake (s : String) (n : Nat) : String := String.mk (s.data.take n)

/-- The content-preview expression of the scoring prompt (l.128):
opportunity.content[:500] if opportunity.content else the placeholder. -/
def contentPreview (content : String) : String :=
  if content = "" then ("No content") else pyTake content 500

/-- The f-string prompt of score_opportunity_relevance (ll.111-144).  Dict
reads use .get with the Unknown default; tags are comma-joined. -/
def buildScoringPrompt (company_analysis : CompanyAnalysis)
    (opportunity : Opportunity) : String :=
  "Analyze the relevance of this business opportunity for the company:\n\n" ++
  "Company Profile:\n" ++
  "Industry Focus: " ++ company_analysis.industry_focus.getD ("Unknown") ++ "\n" ++
  "Business Stage: " ++ company_analysis.business_stage.getD ("Unknown") ++ "\n" ++
  "Target Customers: " ++ company_analysis.target_customers.getD ("Unknown") ++ "\n" ++
  "Growth Priorities: " ++ company_analysis.growth_priorities.getD ("Unknown") ++ "\n" ++
  "Technology Adoption: " ++ company_analysis.technology_adoption.getD ("Unknown") ++ "\n" ++
  "Geographic Scope: " ++ company_analysis.geographic_scope.getD ("Unknown") ++ "\n\n" ++
  "Opportunity:\n" ++
  "Title: " ++ opportunity.title ++ "\n" ++
  "Description: " ++ opportunity.description ++ "\n" ++
  "Type: " ++ opportunity.opportunity_type ++ "\n" ++
  "Source: " ++ opportunity.source ++ "\n" ++
  "Tags: " ++ String.intercalate (", ") opportunity.tags ++ "\n" ++
  "Content Preview: " ++ contentPreview opportunity.content ++ "\n\n" ++
  "Analyze relevance considering:\n" ++
  "1. Industry alignment and market fit\n" ++
  "2. Business stage appropriateness\n" ++
  "3. Geographic relevance\n" ++
  "4. Potential business impact\n" ++
  "5. Timing and urgency\n\n" ++
  "Return JSON with:\n" ++
  "- relevance_score: float between 0.0 and 1.0 (1.0 = highly relevant)\n" ++
  "- reasoning: detailed explanation of why this opportunity matches or does not match\n" ++
  "- key_match_factors: array of specific reasons for the score\n" ++
  "- actionability: how actionable this opportunity is for the company\n\n" ++
  "Be strict with scoring - only score above 0.7 for highly relevant opportunities."

/-- The Match constructed from a parsed scoring dict (ll.166-172): the score
read with default 0.0 and clamped by max(0.0, min(1.0, raw)), the reasoning
read with its canned default. -/
def mkScoredMatch (opportunity : Opportunity) (now : Nat)
    (relevance_score : Option ℚ) (reasoning : Option String) : Match :=
  { company_id := "placeholder",
    opportunity_id := opportunity.id,
    relevance_score := max 0 (min 1 (relevance_score.getD 0)),
    reasoning := reasoning.getD ("AI analysis completed"),
    match_status := "pending",
    created_at := some now }

/-- score_opportunity_relevance (opportunity_matcher.py ll.107-185).  The
empty-content branch (ll.163-164) substitutes the dict with score 0.0 and
reasoning No analysis available, then falls into the same construction; the
exception branch (ll.177-185) returns the zero-score failure Match. -/
def score_opportunity_relevance (oracle : ScoringOracle)
    (company_analysis : CompanyAnalysis) (opportunity : Opportunity)
    (now : Nat) : Match :=
  match oracle opportunity (buildScoringPrompt company_analysis opportunity) with
  | .raised e =>
      { company_id := "placeholder",
        opportunity_id := opportunity.id,
        relevance_score := 0,
        reasoning := "Analysis unavailable: " ++ e,
        match_status := "pending",
        created_at := some now }
  | .noContent => mkScoredMatch opportunity now (some 0) (some ("No analysis available"))
  | .scored s r => mkScoredMatch opportunity now s r

/-- The company_id overwrite performed by the loop body of
find_matches_for_company (l.196). -/
def withCompany (profile : CompanyProfile) (m : Match) : Match :=
  { m with company_id := profile.company_name }

/-- The per-opportunity scoring of the loop (ll.194-196), before the
threshold test: one Match per input opportunity, in input order, with the
company id overwritten to the profile company name. -/
def scored_matches (oracle : ScoringOracle) (company_analysis : CompanyAnalysis)
    (profile : CompanyProfile) (opportunities : List Opportunity)
    (now : Nat) : List Match :=
  opportunities.map (fun opportunity =>
    withCompany profile (score_opportunity_relevance oracle company_analysis opportunity now))

/-- The threshold test of l.198. -/
def passes (min_score : ℚ) (m : Match) : Bool :=
  decide (min_score ≤ m.relevance_score)

/-- The descending-score relation used as sort key: left score at least
right score.  matches.sort(key=score, reverse=True) is the stable sort under
this relation. -/
def scoreGE (a b : Match) : Prop :=
  b.relevance_score ≤ a.relevance_score

instance : DecidableRel scoreGE :=
  fun a b => inferInstanceAs (Decidable (b.relevance_score ≤ a.relevance_score))

instance : IsTotal Match scoreGE :=
  ⟨fun a b => le_total b.relevance_score a.relevance_score⟩

instance : IsTrans Match scoreGE :=
  ⟨fun _ _ _ hab hbc => le_trans hbc hab⟩

/-- Default of the min_score parameter (l.188). -/
def default_min_score : ℚ := 6 / 10

/-- find_matches_for_company (opportunity_matcher.py ll.187-205): analyze the
profile once, score every opportunity, keep the Matches meeting the
threshold (the conditional append of ll.198-199 is the filter of the scored
list), and sort descending by relevance score (l.202, stable). -/
def find_matches_for_company (analysisOutcome : AnalysisOutcome)
    (oracle : ScoringOracle) (profile : CompanyProfile)
    (opportunities : List Opportunity) (min_score : ℚ) (now : Nat) : List Match :=
  let company_analysis := analyze_company_profile analysisOutcome profile
  List.insertionSort scoreGE
    ((scored_matches oracle company_analysis profile opportunities now).filter
      (passes min_score))

/-- The ranking step in isolation: threshold filter followed by the stable
descending sort, as applied by find_matches_for_company to the scored list. -/
def rank (matchList : List Match) (min_score : ℚ) : List Match :=
  List.insertionSort scoreGE (matchList.filter (passes min_score))

/-- Field names of the BusinessProfile dataclass
(src/profile/business_profile.py ll.24-54) — the class named by the type
hint of the profile parameter of analyze_company_profile. -/
def businessProfileFieldNames : List String :=
  ["company_name", "industry", "sub_industry", "business_size",
   "annual_revenue", "location", "primary_products", "target_markets",
   "market_focus", "unique_selling_points", "main_challenges",
   "growth_goals", "target_revenue_growth", "focus_regions",
   "competitor_companies", "key_keywords", "preferred_languages",
   "created_at", "updated_at", "profile_completeness"]

/-- Attribute names read by the profile_text f-string of
analyze_company_profile (opportunity_matcher.py ll.50-59), in evaluation
order.  This construction happens before the try block starts at l.77. -/
def profileTextAttributeReads : List String :=
  ["company_name", "industry", "business_type", "company_size",
   "description", "services", "target_markets", "key_challenges"]

/-- First attribute read by the profile_text construction that the given
attribute table does not provide: Python raises AttributeError there. -/
def firstMissingProfileAttr (has : String → Bool) : Option String :=
  profileTextAttributeReads.find? (fun a => !(has a))

/-- Attribute table of a BusinessProfile dataclass instance: exactly the
dataclass fields. -/
def businessProfileHasAttr (a : String) : Bool :=
  businessProfileFieldNames.contains a

/-- analyze_company_profile including the attribute accesses of the
profile_text construction (ll.50-59), which precede the try block: when the
argument object lacks one of the read attributes, the AttributeError
propagates to the caller; otherwise the function behaves as
analyze_company_profile. -/
def analyze_company_profile_checked (has : String → Bool)
    (outcome : AnalysisOutcome) (profile : CompanyProfile) :
    Except String CompanyAnalysis :=
  match firstMissingProfileAttr has with
  | some a => Except.error ("AttributeError: " ++ a)
  | none => Except.ok (analyze_company_profile outcome profile)

/-! Concrete sample inputs used to evaluate the embedding on closed data. -/

/-- A concrete opportunity whose scoring oracle call will raise. -/
def oppX : Opportunity :=
  { id := "x1", title := "Tariff shift", description := "dx", content := "",
    source := "s", source_url := "u", opportunity_type := "news",
    tags := [], published_at := 0, metadata := [] }

/-- A concrete opportunity scored 0.8 by the sample oracle. -/
def oppY : Opportunity :=
  { oppX with id := "y1", title := "Trade fair" }

/-- A concrete opportunity scored 0.9 by the sample oracle. -/
def oppZ : Opportunity :=
  { oppX with id := "z1", title := "Supplier lead" }

/-- A concrete company profile. -/
def sampleProfile : CompanyProfile :=
  { company_name := "Artisan Leather Works", industry := "fashion_apparel",
    business_type := "Company", company_size := "11-50 employees",
    description := "d", services := [], target_markets := [],
    key_challenges := [] }

/-- A concrete scoring oracle: raises on oppX, returns 0.8 for oppY and 0.9
for any other opportunity. -/
def sampleOracle : ScoringOracle := fun opportunity _ =>
  if opportunity.id = "x1" then ScoringOutcome.raised ("boom")
  else if opportunity.id = "y1" then ScoringOutcome.scored (some (4/5)) (some ("fits"))
  else ScoringOutcome.scored (some (9/10)) (some ("fits"))

/-- The Match produced for oppY by the sample scenario. -/
def sampleMatchY : Match :=
  { company_id := "Artisan Leather Works", opportunity_id := "y1",
    relevance_score := 4/5, reasoning := "fits", match_status := "pending",
    created_at := some 0 }

/-- The Match produced for oppZ by the sample scenario. -/
def sampleMatchZ : Match :=
  { company_id := "Artisan Leather Works", opportunity_id := "z1",
    relevance_score := 9/10, reasoning := "fits", match_status := "pending",
    created_at := some 0 }

/-! Helper lemmas about the pipeline. -/

/-- The scorer stamps the id of the opportunity it was called on, on every
path. -/
theorem score_opportunity_id (oracle : ScoringOracle)
    (company_analysis : CompanyAnalysis) (opportunity : Opportunity) (now : Nat) :
    (score_opportunity_relevance oracle company_analysis opportunity now).opportunity_id =
      opportunity.id := by
  cases h : oracle opportunity (buildScoringPrompt company_analysis opportunity) <;>
    simp [score_opportunity_relevance, h, mkScoredMatch]

/-- The threshold test as a proposition. -/
theorem passes_iff (min_score : ℚ) (m : Match) :
    passes min_score m = true ↔ min_score ≤ m.relevance_score := by
  simp [passes]

/-- Inserting an element that passes a Boolean test, when every element it
may be inserted in front of also fails the test whenever the inserted
element could not be placed behind it, commutes with filtering. -/
theorem filter_orderedInsert_pos (p : Match → Bool) (a : Match) (l : List Match)
    (ha : p a = true) (hskip : ∀ b : Match, ¬ scoreGE a b → p b = false) :
    (List.orderedInsert scoreGE a l).filter p = a :: l.filter p := by
  induction l with
  | nil => simp [List.orderedInsert, ha]
  | cons b l ih =>
    by_cases h : scoreGE a b
    · rw [List.orderedInsert, if_pos h]
      simp [List.filter_cons, ha]
    · rw [List.orderedInsert, if_neg h]
      simp only [List.filter_cons, hskip b h, ih]
      simp

/-- Inserting an element that fails a Boolean test commutes with filtering. -/
theorem filter_orderedInsert_neg (p : Match → Bool) (a : Match) (l : List Match)
    (ha : p a = false) :
    (List.orderedInsert scoreGE a l).filter p = l.filter p := by
  induction l with
  | nil => simp [List.orderedInsert, ha]
  | cons b l ih =>
    by_cases h : scoreGE a b
    · rw [List.orderedInsert, if_pos h]
      simp [List.filter_cons, ha]
    · rw [List.orderedInsert, if_neg h]
      simp only [List.filter_cons, ih]

/-- Stability of the descending insertion sort: restricted to the matches of
any one score, sorting is the identity on the sequence. -/
theorem filter_score_insertionSort (s : ℚ) (l : List Match) :
    (List.insertionSort scoreGE l).filter (fun m => decide (m.relevance_score = s)) =
      l.filter (fun m => decide (m.relevance_score = s)) := by
  induction l with
  | nil => rfl
  | cons a l ih =>
    rw [List.insertionSort]
    by_cases ha : a.relevance_score = s
    · rw [filter_orderedInsert_pos _ a _ (by simp [ha]) ?_, ih,
        List.filter_cons, if_pos (by simp [ha])]
      intro b hb
      have hlt : a.relevance_score < b.relevance_score := not_le.mp hb
      have : b.relevance_score ≠ s := by
        rw [← ha]
        exact ne_of_gt hlt
      simp [this]
    · rw [filter_orderedInsert_neg _ a _ (by simp [ha]), ih,
        List.filter_cons, if_neg (by simp [ha])]

/-! Claim theorems. -/

/-- C1: for every oracle response, the Match returned by
score_opportunity_relevance has relevance_score in [0.0, 1.0]; the raw score
is clamped via max(0.0, min(1.0, raw)), a missing score defaults to 0.0, and
out-of-range values such as 1.5 and -3 are clamped to 1.0 and 0.0. -/
theorem relevance_score_clamped :
    ∀ (oracle : ScoringOracle) (company_analysis : CompanyAnalysis)
      (opportunity : Opportunity) (now : Nat),
    (0 ≤ (score_opportunity_relevance oracle company_analysis opportunity now).relevance_score
      ∧ (score_opportunity_relevance oracle company_analysis opportunity now).relevance_score ≤ 1)
    ∧ (∀ (raw : ℚ) (reasoning : Option String),
        (score_opportunity_relevance (fun _ _ => ScoringOutcome.scored (some raw) reasoning)
          company_analysis opportunity now).relevance_score = max 0 (min 1 raw))
    ∧ (∀ reasoning : Option String,
        (score_opportunity_relevance (fun _ _ => ScoringOutcome.scored none reasoning)
          company_analysis opportunity now).relevance_score = 0)
    ∧ (score_opportunity_relevance (fun _ _ => ScoringOutcome.scored (some (3/2)) none)
        company_analysis opportunity now).relevance_score = 1
    ∧ (score_opportunity_relevance (fun _ _ => ScoringOutcome.scored (some (-3)) none)
        company_analysis opportunity now).relevance_score = 0 := by
  intro oracle company_analysis opportunity now
  refine ⟨?_, ?_, ?_, ?_, ?_⟩
  · cases h : oracle opportunity (buildScoringPrompt company_analysis opportunity) <;>
      simp [score_opportunity_relevance, h, mkScoredMatch]
  · intro raw reasoning
    simp [score_opportunity_relevance, mkScoredMatch]
  · intro reasoning
    simp [score_opportunity_relevance, mkScoredMatch]
  · with_unfolding_all rfl
  · with_unfolding_all rfl

/-- C2: every Match returned by find_matches_for_company has
relevance_score at least min_score, and comes from the per-opportunity
scoring of the input list. -/
theorem find_matches_only_above_threshold :
    ∀ (analysisOutcome : AnalysisOutcome) (oracle : ScoringOracle)
      (profile : CompanyProfile) (opportunities : List Opportunity)
      (min_score : ℚ) (now : Nat) (m : Match),
    m ∈ find_matches_for_company analysisOutcome oracle profile opportunities min_score now →
    min_score ≤ m.relevance_score
    ∧ m ∈ scored_matches oracle (analyze_company_profile analysisOutcome profile)
        profile opportunities now := by
  intro analysisOutcome oracle profile opportunities min_score now m hm
  have h1 : m ∈ (scored_matches oracle (analyze_company_profile analysisOutcome profile)
      profile opportunities now).filter (passes min_score) :=
    (List.mem_insertionSort scoreGE).1 hm
  have h2 := List.mem_filter.1 h1
  exact ⟨(passes_iff min_score m).1 h2.2, h2.1⟩

/-- C2 witness: the sample scenario keeps the 0.8 match for oppY, and that
match is above the 0.6 threshold and among the scored matches. -/
theorem find_matches_only_above_threshold_check :
    (6:ℚ)/10 ≤ sampleMatchY.relevance_score
    ∧ sampleMatchY ∈ scored_matches sampleOracle
        (analyze_company_profile AnalysisOutcome.noContent sampleProfile)
        sampleProfile [oppX, oppY, oppZ] 0 :=
  find_matches_only_above_threshold AnalysisOutcome.noContent sampleOracle
    sampleProfile [oppX, oppY, oppZ] ((6:ℚ)/10) 0 sampleMatchY
    (by
      have h : find_matches_for_company AnalysisOutcome.noContent sampleOracle
          sampleProfile [oppX, oppY, oppZ] ((6:ℚ)/10) 0 = [sampleMatchZ, sampleMatchY] := by
        with_unfolding_all rfl
      rw [h]
      exact List.mem_cons_of_mem _ (List.mem_cons_self _ _))

/-- C3: the Match list returned by find_matches_for_company is sorted
descending by relevance_score, and the subsequence of matches of any one
score is exactly the corresponding subsequence of the threshold-filtered
scored list in its input order (stable sort). -/
theorem find_matches_sorted_and_stable :
    ∀ (analysisOutcome : AnalysisOutcome) (oracle : ScoringOracle)
      (profile : CompanyProfile) (opportunities : List Opportunity)
      (min_score : ℚ) (now : Nat),
    List.Sorted scoreGE
      (find_matches_for_company analysisOutcome oracle profile opportunities min_score now)
    ∧ ∀ s : ℚ,
        (find_matches_for_company analysisOutcome oracle profile opportunities
            min_score now).filter (fun m => decide (m.relevance_score = s)) =
          ((scored_matches oracle (analyze_company_profile analysisOutcome profile)
              profile opportunities now).filter (passes min_score)).filter
            (fun m => decide (m.relevance_score = s)) := by
  intro analysisOutcome oracle profile opportunities min_score now
  constructor
  · exact List.sorted_insertionSort scoreGE _
  · intro s
    exact filter_score_insertionSort s _

/-- C4: when the scoring oracle call raises, score_opportunity_relevance
returns (rather than raising) a Match with relevance_score 0.0 and the
diagnostic reasoning text. -/
theorem score_failure_returns_zero_match :
    ∀ (oracle : ScoringOracle) (company_analysis : CompanyAnalysis)
      (opportunity : Opportunity) (now : Nat) (msg : String),
    oracle opportunity (buildScoringPrompt company_analysis opportunity) =
      ScoringOutcome.raised msg →
    score_opportunity_relevance oracle company_analysis opportunity now =
      { company_id := "placeholder", opportunity_id := opportunity.id,
        relevance_score := 0, reasoning := "Analysis unavailable: " ++ msg,
        match_status := "pending", created_at := some now } := by
  intro oracle company_analysis opportunity now msg h
  unfold score_opportunity_relevance
  rw [h]

/-- C4 witness: a concrete raising oracle yields the concrete failure Match. -/
theorem score_failure_returns_zero_match_check :
    score_opportunity_relevance (fun _ _ => ScoringOutcome.raised ("boom"))
        CompanyAnalysis.empty oppX 7 =
      { company_id := "placeholder", opportunity_id := "x1",
        relevance_score := 0, reasoning := "Analysis unavailable: boom",
        match_status := "pending", created_at := some 7 } :=
  score_failure_returns_zero_match (fun _ _ => ScoringOutcome.raised ("boom"))
    CompanyAnalysis.empty oppX 7 "boom" rfl

/-- C8: the ranking step (threshold filter followed by the stable descending
sort) is idempotent. -/
theorem rank_idempotent :
    ∀ (matchList : List Match) (min_score : ℚ),
    rank (rank matchList min_score) min_score = rank matchList min_score := by
  intro matchList min_score
  unfold rank
  have hfil : (List.insertionSort scoreGE (matchList.filter (passes min_score))).filter
      (passes min_score) = List.insertionSort scoreGE (matchList.filter (passes min_score)) := by
    apply List.filter_eq_self.mpr
    intro a ha
    exact (List.mem_filter.1 ((List.mem_insertionSort scoreGE).1 ha)).2
  rw [hfil]
  exact List.Sorted.insertionSort_eq (List.sorted_insertionSort scoreGE _)

/-- C10: every Match returned by find_matches_for_company carries the profile
company name as company_id and the id of the opportunity it was scored
against, on both scorer paths. -/
theorem find_matches_ids :
    ∀ (analysisOutcome : AnalysisOutcome) (oracle : ScoringOracle)
      (profile : CompanyProfile) (opportunities : List Opportunity)
      (min_score : ℚ) (now : Nat) (m : Match),
    m ∈ find_matches_for_company analysisOutcome oracle profile opportunities min_score now →
    m.company_id = profile.company_name
    ∧ ∃ opportunity ∈ opportunities,
        m.opportunity_id = opportunity.id
        ∧ m = withCompany profile
            (score_opportunity_relevance oracle
              (analyze_company_profile analysisOutcome profile) opportunity now) := by
  intro analysisOutcome oracle profile opportunities min_score now m hm
  have h1 : m ∈ (scored_matches oracle (analyze_company_profile analysisOutcome profile)
      profile opportunities now).filter (passes min_score) :=
    (List.mem_insertionSort scoreGE).1 hm
  have h2 : m ∈ scored_matches oracle (analyze_company_profile analysisOutcome profile)
      profile opportunities now := (List.mem_filter.1 h1).1
  rcases List.mem_map.1 h2 with ⟨opportunity, hin, heq⟩
  refine ⟨?_, opportunity, hin, ?_, heq.symm⟩
  · rw [← heq]
    rfl
  · rw [← heq]
    show (score_opportunity_relevance oracle
      (analyze_company_profile analysisOutcome profile) opportunity now).opportunity_id =
        opportunity.id
    exact score_opportunity_id oracle (analyze_company_profile analysisOutcome profile)
      opportunity now

/-- C10 witness: in the sample scenario the retained 0.8 match carries the
profile company name and the id of oppY it was scored against. -/
theorem find_matches_ids_check :
    sampleMatchY.company_id = sampleProfile.company_name
    ∧ ∃ opportunity ∈ [oppX, oppY, oppZ],
        sampleMatchY.opportunity_id = opportunity.id
        ∧ sampleMatchY = withCompany sampleProfile
            (score_opportunity_relevance sampleOracle
              (analyze_company_profile AnalysisOutcome.noContent sampleProfile)
              opportunity 0) :=
  find_matches_ids AnalysisOutcome.noContent sampleOracle sampleProfile
    [oppX, oppY, oppZ] ((6:ℚ)/10) 0 sampleMatchY
    (by
      have h : find_matches_for_company AnalysisOutcome.noContent sampleOracle
          sampleProfile [oppX, oppY, oppZ] ((6:ℚ)/10) 0 = [sampleMatchZ, sampleMatchY] := by
        with_unfolding_all rfl
      rw [h]
      exact List.mem_cons_of_mem _ (List.mem_cons_self _ _))

/-- C6 counterexample: when the analysis oracle raises, the returned object
is missing six of the eight characterization fields — target_customers,
growth_priorities, technology_adoption, geographic_scope, key_capabilities
and partnership_interests are all absent. -/
theorem analyze_failure_missing_field_check :
    (analyze_company_profile (AnalysisOutcome.raised ("boom")) sampleProfile).target_customers = none
    ∧ (analyze_company_profile (AnalysisOutcome.raised ("boom")) sampleProfile).growth_priorities = none
    ∧ (analyze_company_profile (AnalysisOutcome.raised ("boom")) sampleProfile).technology_adoption = none
    ∧ (analyze_company_profile (AnalysisOutcome.raised ("boom")) sampleProfile).geographic_scope = none
    ∧ (analyze_company_profile (AnalysisOutcome.raised ("boom")) sampleProfile).key_capabilities = none
    ∧ (analyze_company_profile (AnalysisOutcome.raised ("boom")) sampleProfile).partnership_interests = none :=
  ⟨rfl, rfl, rfl, rfl, rfl, rfl⟩

/-- C6 amended: analyze_company_profile always returns an object, but only
the oracle-failure path (industry_focus = profile.industry, business_stage
unknown, error marker) and the empty-content path (industry_focus and
business_stage Unknown) populate any fields — each leaves the remaining
fields absent — and a parsed oracle object is returned verbatim with no
defaulting; absent fields are replaced by Unknown only when read by the
scoring-prompt construction. -/
theorem analyze_company_profile_paths :
    ∀ (msg : String) (profile : CompanyProfile) (analysis : CompanyAnalysis),
    (analyze_company_profile (AnalysisOutcome.raised msg) profile =
      { industry_focus := some profile.industry, business_stage := some ("unknown"),
        target_customers := none, growth_priorities := none,
        technology_adoption := none, geographic_scope := none,
        key_capabilities := none, partnership_interests := none,
        error := some msg })
    ∧ (analyze_company_profile AnalysisOutcome.noContent profile =
      { industry_focus := some ("Unknown"), business_stage := some ("Unknown"),
        target_customers := none, growth_priorities := none,
        technology_adoption := none, geographic_scope := none,
        key_capabilities := none, partnership_interests := none, error := none })
    ∧ analyze_company_profile (AnalysisOutcome.parsed analysis) profile = analysis := by
  intro msg profile analysis
  exact ⟨rfl, rfl, rfl⟩

/-- C7: the profile_text construction of analyze_company_profile reads the
attribute business_type, which the BusinessProfile dataclass named by the
parameter type hint does not define; the read happens before the try block,
so for every BusinessProfile instance the call raises AttributeError instead
of returning a characterization. -/
theorem analyze_company_profile_missing_attribute :
    ∀ (outcome : AnalysisOutcome) (profile : CompanyProfile),
    analyze_company_profile_checked businessProfileHasAttr outcome profile =
      Except.error ("AttributeError: business_type")
    ∧ firstMissingProfileAttr businessProfileHasAttr = some ("business_type") := by
  intro outcome profile
  exact ⟨rfl, rfl⟩

/-- The content preview of the scoring prompt only depends on the first 500
characters of the content. -/
theorem contentPreview_pyTake (c : String) :
    contentPreview (pyTake c 500) = contentPreview c := by
  by_cases hc : c = ""
  · rw [hc]
    rfl
  · have hne : pyTake c 500 ≠ "" := by
      intro h
      apply hc
      have hdata : c.data.take 500 = [] := congrArg String.data h
      rcases List.take_eq_nil_iff.mp hdata with h500 | hnil
      · exact absurd h500 (by norm_num)
      · cases c
        simp_all
    rw [contentPreview, if_neg hne, contentPreview, if_neg hc]
    show String.mk ((c.data.take 500).take 500) = String.mk (c.data.take 500)
    rw [List.take_take]
    norm_num

/-- C9: the scoring prompt contains at most the first 500 characters of the
opportunity content as its preview — replacing the content by its first 500
characters leaves the prompt unchanged, the preview never exceeds 500
characters, and empty content yields the placeholder text. -/
theorem scoring_prompt_truncates_content :
    ∀ (company_analysis : CompanyAnalysis) (opportunity : Opportunity),
    buildScoringPrompt company_analysis
        { opportunity with content := pyTake opportunity.content 500 } =
      buildScoringPrompt company_analysis opportunity
    ∧ (contentPreview opportunity.content).length ≤ 500
    ∧ contentPreview ("") = "No content" := by
  intro company_analysis opportunity
  refine ⟨?_, ?_, rfl⟩
  · simp [buildScoringPrompt, contentPreview_pyTake]
  · by_cases hc : opportunity.content = ""
    · rw [contentPreview, if_pos hc]
      rw [show ("No content" : String).length = 10 from rfl]
      norm_num
    · rw [contentPreview, if_neg hc]
      show (opportunity.content.data.take 500).length ≤ 500
      rw [List.length_take]
      exact min_le_left 500 _

/-- C5 counterexample: in the concrete scenario where the oracle raises for
oppX and returns 0.8 and 0.9 for oppY and oppZ with the default 0.6
threshold, the returned list holds exactly the matches for oppZ and oppY at
their scores — no zero-score Match for oppX appears. -/
theorem find_matches_omits_failed_opportunity_check :
    (find_matches_for_company AnalysisOutcome.noContent sampleOracle sampleProfile
        [oppX, oppY, oppZ] ((6:ℚ)/10) 0).map
      (fun m => (m.opportunity_id, m.relevance_score)) = [("z1", 9/10), ("y1", 4/5)]
    ∧ ∀ m ∈ find_matches_for_company AnalysisOutcome.noContent sampleOracle sampleProfile
        [oppX, oppY, oppZ] ((6:ℚ)/10) 0, m.opportunity_id ≠ "x1" := by
  have h : find_matches_for_company AnalysisOutcome.noContent sampleOracle
      sampleProfile [oppX, oppY, oppZ] ((6:ℚ)/10) 0 = [sampleMatchZ, sampleMatchY] := by
    with_unfolding_all rfl
  constructor
  · rw [h]
    with_unfolding_all rfl
  · intro m hm
    rw [h] at hm
    rcases List.mem_cons.1 hm with h1 | h1
    · rw [h1]
      decide
    · rcases List.mem_cons.1 h1 with h2 | h2
      · rw [h2]
        decide
      · exact absurd h2 (List.not_mem_nil m)

/-- C5 amended: when the oracle raises for X but scores Y and Z within
[min_score, 1] and the threshold is positive, find_matches_for_company still
returns the ranked Matches for Y and Z at their correct scores, but the
zero-score failure Match for X is removed by the threshold filter like any
below-threshold match, so the returned list has exactly the two matches and
none for X. -/
theorem find_matches_failure_isolation :
    ∀ (analysisOutcome : AnalysisOutcome) (oracle : ScoringOracle)
      (profile : CompanyProfile) (X Y Z : Opportunity) (msg : String)
      (sy sz : ℚ) (ry rz : Option String) (min_score : ℚ) (now : Nat),
    (∀ p : String, oracle X p = ScoringOutcome.raised msg) →
    (∀ p : String, oracle Y p = ScoringOutcome.scored (some sy) ry) →
    (∀ p : String, oracle Z p = ScoringOutcome.scored (some sz) rz) →
    Y.id ≠ X.id → Z.id ≠ X.id →
    0 < min_score → min_score ≤ sy → sy ≤ 1 → min_score ≤ sz → sz ≤ 1 →
    ((∀ m ∈ find_matches_for_company analysisOutcome oracle profile [X, Y, Z] min_score now,
        m.opportunity_id ≠ X.id)
     ∧ (∃ m ∈ find_matches_for_company analysisOutcome oracle profile [X, Y, Z] min_score now,
        m.opportunity_id = Y.id ∧ m.relevance_score = sy)
     ∧ (∃ m ∈ find_matches_for_company analysisOutcome oracle profile [X, Y, Z] min_score now,
        m.opportunity_id = Z.id ∧ m.relevance_score = sz)
     ∧ (find_matches_for_company analysisOutcome oracle profile [X, Y, Z] min_score now).length
        = 2) := by
  intro analysisOutcome oracle profile X Y Z msg sy sz ry rz min_score now
  intro hX hY hZ hYX hZX ht htsy hsy1 htsz hsz1
  have clampy : max 0 (min 1 sy) = sy := by
    rw [min_eq_right hsy1, max_eq_right (le_trans ht.le htsy)]
  have clampz : max 0 (min 1 sz) = sz := by
    rw [min_eq_right hsz1, max_eq_right (le_trans ht.le htsz)]
  have hrX : (score_opportunity_relevance oracle
      (analyze_company_profile analysisOutcome profile) X now).relevance_score = 0 := by
    unfold score_opportunity_relevance
    rw [hX]
  have hrY : (score_opportunity_relevance oracle
      (analyze_company_profile analysisOutcome profile) Y now).relevance_score = sy := by
    unfold score_opportunity_relevance
    rw [hY]
    show max 0 (min 1 ((some sy).getD 0)) = sy
    rw [Option.getD_some]
    exact clampy
  have hrZ : (score_opportunity_relevance oracle
      (analyze_company_profile analysisOutcome profile) Z now).relevance_score = sz := by
    unfold score_opportunity_relevance
    rw [hZ]
    show max 0 (min 1 ((some sz).getD 0)) = sz
    rw [Option.getD_some]
    exact clampz
  have pX : passes min_score (withCompany profile (score_opportunity_relevance oracle
      (analyze_company_profile analysisOutcome profile) X now)) = false := by
    unfold passes withCompany
    rw [show (score_opportunity_relevance oracle
      (analyze_company_profile analysisOutcome profile) X now).relevance_score = (0:ℚ) from hrX]
    exact decide_eq_false (not_le.mpr ht)
  have pY : passes min_score (withCompany profile (score_opportunity_relevance oracle
      (analyze_company_profile analysisOutcome profile) Y now)) = true := by
    unfold passes withCompany
    rw [show (score_opportunity_relevance oracle
      (analyze_company_profile analysisOutcome profile) Y now).relevance_score = sy from hrY]
    exact decide_eq_true htsy
  have pZ : passes min_score (withCompany profile (score_opportunity_relevance oracle
      (analyze_company_profile analysisOutcome profile) Z now)) = true := by
    unfold passes withCompany
    rw [show (score_opportunity_relevance oracle
      (analyze_company_profile analysisOutcome profile) Z now).relevance_score = sz from hrZ]
    exact decide_eq_true htsz
  have hfind : find_matches_for_company analysisOutcome oracle profile [X, Y, Z] min_score now =
      List.insertionSort scoreGE
        [withCompany profile (score_opportunity_relevance oracle
            (analyze_company_profile analysisOutcome profile) Y now),
         withCompany profile (score_opportunity_relevance oracle
            (analyze_company_profile analysisOutcome profile) Z now)] := by
    show List.insertionSort scoreGE
        ((scored_matches oracle (analyze_company_profile analysisOutcome profile)
          profile [X, Y, Z] now).filter (passes min_score)) = _
    have hfil : (scored_matches oracle (analyze_company_profile analysisOutcome profile)
        profile [X, Y, Z] now).filter (passes min_score) =
        [withCompany profile (score_opportunity_relevance oracle
            (analyze_company_profile analysisOutcome profile) Y now),
         withCompany profile (score_opportunity_relevance oracle
            (analyze_company_profile analysisOutcome profile) Z now)] := by
      show ([withCompany profile (score_opportunity_relevance oracle
            (analyze_company_profile analysisOutcome profile) X now),
          withCompany profile (score_opportunity_relevance oracle
            (analyze_company_profile analysisOutcome profile) Y now),
          withCompany profile (score_opportunity_relevance oracle
            (analyze_company_profile analysisOutcome profile) Z now)]).filter
          (passes min_score) = _
      rw [List.filter_cons, pX, List.filter_cons, pY, List.filter_cons, pZ, List.filter_nil]
      simp
    rw [hfil]
  have hperm : List.Perm
      (find_matches_for_company analysisOutcome oracle profile [X, Y, Z] min_score now)
      [withCompany profile (score_opportunity_relevance oracle
          (analyze_company_profile analysisOutcome profile) Y now),
       withCompany profile (score_opportunity_relevance oracle
          (analyze_company_profile analysisOutcome profile) Z now)] := by
    rw [hfind]
    exact List.perm_insertionSort scoreGE _
  have idY : (withCompany profile (score_opportunity_relevance oracle
      (analyze_company_profile analysisOutcome profile) Y now)).opportunity_id = Y.id :=
    score_opportunity_id oracle (analyze_company_profile analysisOutcome profile) Y now
  have idZ : (withCompany profile (score_opportunity_relevance oracle
      (analyze_company_profile analysisOutcome profile) Z now)).opportunity_id = Z.id :=
    score_opportunity_id oracle (analyze_company_profile analysisOutcome profile) Z now
  refine ⟨?_, ?_, ?_, ?_⟩
  · intro m hm
    rcases List.mem_cons.1 (hperm.mem_iff.1 hm) with h1 | h1
    · rw [h1, idY]
      exact hYX
    · rcases List.mem_cons.1 h1 with h2 | h2
      · rw [h2, idZ]
        exact hZX
      · exact absurd h2 (List.not_mem_nil m)
  · exact ⟨withCompany profile (score_opportunity_relevance oracle
        (analyze_company_profile analysisOutcome profile) Y now),
      hperm.mem_iff.2 (List.mem_cons_self _ _), idY, hrY⟩
  · exact ⟨withCompany profile (score_opportunity_relevance oracle
        (analyze_company_profile analysisOutcome profile) Z now),
      hperm.mem_iff.2 (List.mem_cons_of_mem _ (List.mem_cons_self _ _)), idZ, hrZ⟩
  · rw [hfind, List.length_insertionSort]
    rfl

/-- C5 witness: the amended statement applied to the concrete scenario with
failing oppX and scores 0.8 and 0.9 for oppY and oppZ at threshold 0.6. -/
theorem find_matches_failure_isolation_check :
    (∀ m ∈ find_matches_for_company AnalysisOutcome.noContent sampleOracle sampleProfile
        [oppX, oppY, oppZ] ((6:ℚ)/10) 0, m.opportunity_id ≠ oppX.id)
    ∧ (∃ m ∈ find_matches_for_company AnalysisOutcome.noContent sampleOracle sampleProfile
        [oppX, oppY, oppZ] ((6:ℚ)/10) 0,
        m.opportunity_id = oppY.id ∧ m.relevance_score = (4:ℚ)/5)
    ∧ (∃ m ∈ find_matches_for_company AnalysisOutcome.noContent sampleOracle sampleProfile
        [oppX, oppY, oppZ] ((6:ℚ)/10) 0,
        m.opportunity_id = oppZ.id ∧ m.relevance_score = (9:ℚ)/10)
    ∧ (find_matches_for_company AnalysisOutcome.noContent sampleOracle sampleProfile
        [oppX, oppY, oppZ] ((6:ℚ)/10) 0).length = 2 :=
  find_matches_failure_isolation AnalysisOutcome.noContent sampleOracle sampleProfile
    oppX oppY oppZ ("boom") ((4:ℚ)/5) ((9:ℚ)/10) (some ("fits")) (some ("fits"))
    ((6:ℚ)/10) 0
    (fun _ => rfl) (fun _ => rfl) (fun _ => rfl) (by decide) (by decide)
    (by norm_num) (by norm_num) (by norm_num) (by norm_num) (by norm_num)
